import Mathlib

/-!
Verification of the SpaceMap simulation core of the XenopetsTRHEE repository
(`src/src/components/Game/SpaceMap.tsx`).  JavaScript numbers are modelled as
real numbers; `Date.now()` timestamps are modelled as integers (milliseconds).
Each definition is a shallow embedding of the correspondingly named source
function; line numbers in doc comments refer to `SpaceMap.tsx`.
-/

namespace SpaceMap

open scoped Classical

/-! ## Constants (SpaceMap.tsx lines 115-131) -/

noncomputable def WORLD_SIZE : ℝ := 100000
noncomputable def SHIP_MAX_SPEED : ℝ := 2
noncomputable def FRICTION : ℝ := 0.88
noncomputable def CENTER_X : ℝ := WORLD_SIZE / 2
noncomputable def CENTER_Y : ℝ := WORLD_SIZE / 2
noncomputable def BARRIER_RADIUS : ℝ := 600
noncomputable def PROJECTILE_SPEED : ℝ := 600
noncomputable def PROJECTILE_LIFETIME : ℝ := 4.0

/-! ## World coordinate primitives (lines 350-364) -/

/-- JavaScript truncating conversion used by the `%` operator: rounding toward
zero. -/
noncomputable def jsTrunc (x : ℝ) : ℤ := if 0 ≤ x then ⌊x⌋ else ⌈x⌉

/-- The JavaScript remainder operator `x % m` (sign follows the dividend). -/
noncomputable def jsRem (x m : ℝ) : ℝ := x - m * jsTrunc (x / m)

/-- `getWrappedDistance` (lines 351-359): single-fold shortest signed delta.
```
let delta = coord - cameraCoord;
if (delta > WORLD_SIZE / 2) delta -= WORLD_SIZE;
else if (delta < -WORLD_SIZE / 2) delta += WORLD_SIZE;
return delta;
``` -/
noncomputable def getWrappedDistance (coord cameraCoord : ℝ) : ℝ :=
  if coord - cameraCoord > WORLD_SIZE / 2 then coord - cameraCoord - WORLD_SIZE
  else if coord - cameraCoord < -(WORLD_SIZE / 2) then coord - cameraCoord + WORLD_SIZE
  else coord - cameraCoord

/-- `normalizeCoord` (lines 362-364): `((coord % WORLD_SIZE) + WORLD_SIZE) % WORLD_SIZE`. -/
noncomputable def normalizeCoord (coord : ℝ) : ℝ :=
  jsRem (jsRem coord WORLD_SIZE + WORLD_SIZE) WORLD_SIZE

lemma WORLD_SIZE_pos : (0 : ℝ) < WORLD_SIZE := by norm_num [WORLD_SIZE]

lemma jsRem_of_nonneg {x m : ℝ} (hx : 0 ≤ x) (hm : 0 < m) :
    jsRem x m = m * Int.fract (x / m) := by
  have hne : m ≠ 0 := hm.ne'
  unfold jsRem jsTrunc
  rw [if_pos (div_nonneg hx hm.le), Int.fract]
  field_simp

lemma jsRem_of_neg {x m : ℝ} (hx : x < 0) (hm : 0 < m) :
    jsRem x m = -(m * Int.fract (-x / m)) := by
  have hne : m ≠ 0 := hm.ne'
  unfold jsRem jsTrunc
  rw [if_neg (not_le.mpr (div_neg_of_neg_of_pos hx hm)), Int.fract]
  have hceil : (⌈x / m⌉ : ℤ) = -⌊-x / m⌋ := by
    rw [← Int.ceil_neg]
    congr 1
    ring
  rw [hceil]
  push_cast
  field_simp
  ring

/-- The composite normalizer is exactly the canonical representative of
`coord` modulo `WORLD_SIZE`. -/
lemma normalizeCoord_eq_fract (c : ℝ) :
    normalizeCoord c = WORLD_SIZE * Int.fract (c / WORLD_SIZE) := by
  have hW := WORLD_SIZE_pos
  rcases le_or_lt 0 c with hc | hc
  · -- first remainder is already the canonical representative
    have h1 : jsRem c WORLD_SIZE = WORLD_SIZE * Int.fract (c / WORLD_SIZE) :=
      jsRem_of_nonneg hc hW
    have hfr0 : (0:ℝ) ≤ Int.fract (c / WORLD_SIZE) := Int.fract_nonneg _
    have harg : 0 ≤ WORLD_SIZE * Int.fract (c / WORLD_SIZE) + WORLD_SIZE := by positivity
    unfold normalizeCoord
    rw [h1, jsRem_of_nonneg harg hW]
    have hdiv : (WORLD_SIZE * Int.fract (c / WORLD_SIZE) + WORLD_SIZE) / WORLD_SIZE
        = Int.fract (c / WORLD_SIZE) + ((1:ℤ) : ℝ) := by
      field_simp
      ring
    rw [hdiv, Int.fract_add_int, Int.fract_fract]
  · -- negative coordinate: the first remainder is in (-WORLD_SIZE, 0]
    have h1 : jsRem c WORLD_SIZE = -(WORLD_SIZE * Int.fract (-c / WORLD_SIZE)) :=
      jsRem_of_neg hc hW
    have hfr0 : (0:ℝ) ≤ Int.fract (-c / WORLD_SIZE) := Int.fract_nonneg _
    have hfr1 : Int.fract (-c / WORLD_SIZE) < 1 := Int.fract_lt_one _
    rcases eq_or_lt_of_le hfr0 with hzero | hpos
    · -- c is an exact multiple of WORLD_SIZE
      have hint : c / WORLD_SIZE = ((-⌊-c / WORLD_SIZE⌋ : ℤ) : ℝ) := by
        have h0 : -c / WORLD_SIZE - ⌊-c / WORLD_SIZE⌋ = 0 := by
          have := hzero.symm
          rwa [Int.fract] at this
        have hcc : c / WORLD_SIZE = -(-c / WORLD_SIZE) := by ring
        push_cast
        rw [hcc]
        linarith
      have hcf : Int.fract (c / WORLD_SIZE) = 0 := by
        rw [hint, Int.fract_intCast]
      unfold normalizeCoord
      rw [h1, ← hzero, hcf]
      have harg : -(WORLD_SIZE * (0:ℝ)) + WORLD_SIZE = WORLD_SIZE := by ring
      rw [harg, jsRem_of_nonneg hW.le hW, div_self hW.ne', Int.fract_one]
    · -- c is not a multiple: normalize c = WORLD_SIZE * (1 - fract(-c/W))
      have harg : 0 ≤ -(WORLD_SIZE * Int.fract (-c / WORLD_SIZE)) + WORLD_SIZE := by
        nlinarith
      unfold normalizeCoord
      rw [h1, jsRem_of_nonneg harg hW]
      have hdiv : (-(WORLD_SIZE * Int.fract (-c / WORLD_SIZE)) + WORLD_SIZE) / WORLD_SIZE
          = 1 - Int.fract (-c / WORLD_SIZE) := by
        rw [show -(WORLD_SIZE * Int.fract (-c / WORLD_SIZE)) + WORLD_SIZE
            = WORLD_SIZE * (1 - Int.fract (-c / WORLD_SIZE)) by ring]
        rw [mul_div_cancel_left₀ _ hW.ne']
      rw [hdiv]
      have hfr : Int.fract (1 - Int.fract (-c / WORLD_SIZE))
          = 1 - Int.fract (-c / WORLD_SIZE) := by
        rw [Int.fract_eq_self]
        constructor <;> linarith
      rw [hfr]
      have hcf : Int.fract (c / WORLD_SIZE) = 1 - Int.fract (-c / WORLD_SIZE) := by
        have hne0 : Int.fract (-c / WORLD_SIZE) ≠ 0 := ne_of_gt hpos
        have hneg := Int.fract_neg hne0
        have hcc : c / WORLD_SIZE = -(-c / WORLD_SIZE) := by ring
        rw [hcc, hneg]
      rw [hcf]

lemma normalizeCoord_nonneg (c : ℝ) : 0 ≤ normalizeCoord c := by
  rw [normalizeCoord_eq_fract]
  have := Int.fract_nonneg (c / WORLD_SIZE)
  nlinarith [WORLD_SIZE_pos]

lemma normalizeCoord_lt (c : ℝ) : normalizeCoord c < WORLD_SIZE := by
  rw [normalizeCoord_eq_fract]
  have := Int.fract_lt_one (c / WORLD_SIZE)
  nlinarith [WORLD_SIZE_pos]

lemma normalizeCoord_idem (c : ℝ) :
    normalizeCoord (normalizeCoord c) = normalizeCoord c := by
  have hW := WORLD_SIZE_pos
  rw [normalizeCoord_eq_fract c, normalizeCoord_eq_fract]
  rw [mul_div_cancel_left₀ _ hW.ne', Int.fract_fract]

/-- Adding back the integer multiple of `WORLD_SIZE` dropped by an earlier
normalization does not change the result: the normalizer composes with
translation. -/
lemma normalizeCoord_add_left (a b : ℝ) :
    normalizeCoord (normalizeCoord a + b) = normalizeCoord (a + b) := by
  have hW := WORLD_SIZE_pos
  rw [normalizeCoord_eq_fract a, normalizeCoord_eq_fract, normalizeCoord_eq_fract]
  congr 1
  have key : (WORLD_SIZE * Int.fract (a / WORLD_SIZE) + b) / WORLD_SIZE
      = (a + b) / WORLD_SIZE - ((⌊a / WORLD_SIZE⌋ : ℤ) : ℝ) := by
    rw [Int.fract]
    field_simp
    ring
  rw [key, Int.fract_sub_int]

/-- **C1, counterexample.**  The claim asserts `|wrappedDelta(a,b)| ≤ WORLD_SIZE/2`
for *all* real `a, b`.  `getWrappedDistance` folds at most once, so for
`a - b = 2·WORLD_SIZE` it returns `WORLD_SIZE`, violating the bound. -/
theorem getWrappedDistance_bound_fails :
    getWrappedDistance 200000 0 = 100000 ∧
      ¬ |getWrappedDistance 200000 0| ≤ WORLD_SIZE / 2 := by
  constructor
  · norm_num [getWrappedDistance, WORLD_SIZE]
  · norm_num [getWrappedDistance, WORLD_SIZE]

/-- **C1, amended.**  The single-fold wrapped delta is bounded by
`WORLD_SIZE/2` whenever the raw difference lies within `3/2·WORLD_SIZE` of
zero (which holds for all in-game coordinates, which live in
`[0, WORLD_SIZE)`), and the coordinate normalizer is idempotent with range
`[0, WORLD_SIZE)` for all real inputs. -/
theorem wrappedDistance_bound_and_normalize_props :
    (∀ a b : ℝ, |a - b| ≤ 3 * WORLD_SIZE / 2 →
      |getWrappedDistance a b| ≤ WORLD_SIZE / 2) ∧
    (∀ x : ℝ, normalizeCoord (normalizeCoord x) = normalizeCoord x ∧
      0 ≤ normalizeCoord x ∧ normalizeCoord x < WORLD_SIZE) := by
  constructor
  · intro a b h
    rw [abs_le] at h ⊢
    unfold getWrappedDistance
    have hW : (0:ℝ) < WORLD_SIZE := WORLD_SIZE_pos
    split_ifs with h1 h2
    · constructor <;> linarith
    · constructor <;> linarith
    · push_neg at h1 h2
      constructor <;> linarith
  · intro x
    exact ⟨normalizeCoord_idem x, normalizeCoord_nonneg x, normalizeCoord_lt x⟩

/-- Witness for the amended C1 theorem at concrete inputs. -/
theorem wrappedDistance_bound_witness :
    |(200 : ℝ) - 100| ≤ 3 * WORLD_SIZE / 2 ∧
      |getWrappedDistance 200 100| ≤ WORLD_SIZE / 2 :=
  ⟨by norm_num [WORLD_SIZE],
   wrappedDistance_bound_and_normalize_props.1 200 100 (by norm_num [WORLD_SIZE])⟩

/-! ## Game state (SpaceMap.tsx lines 101-113, 232-278) -/

@[ext] structure Ship where
  x : ℝ
  y : ℝ
  angle : ℝ
  vx : ℝ
  vy : ℝ

@[ext] structure Camera where
  x : ℝ
  y : ℝ

@[ext] structure GameState where
  ship : Ship
  camera : Camera

/-- The persisted ship record written by `saveShipState` (lines 2128-2136):
all seven fields are saved. -/
structure SavedShipState where
  x : ℝ
  y : ℝ
  angle : ℝ
  vx : ℝ
  vy : ℝ
  cameraX : ℝ
  cameraY : ℝ

/-- `getInitialGameState` (lines 233-263): restores only `x`, `y`, `cameraX`,
`cameraY` from a saved state; angle and velocity are reset to zero. -/
noncomputable def getInitialGameState (saved : Option SavedShipState) : GameState :=
  match saved with
  | some s =>
      { ship := { x := s.x, y := s.y, angle := 0, vx := 0, vy := 0 },
        camera := { x := s.cameraX, y := s.cameraY } }
  | none =>
      { ship := { x := CENTER_X, y := CENTER_Y + 200, angle := 0, vx := 0, vy := 0 },
        camera := { x := CENTER_X, y := CENTER_Y + 200 } }

/-- The mount-time effect (lines 268-278) that zeroes `vx`, `vy`, `angle`. -/
noncomputable def resetVelocityOnMount (gs : GameState) : GameState :=
  { gs with ship := { gs.ship with vx := 0, vy := 0, angle := 0 } }

/-- **C10.**  For every persisted state (including `null`) the initial ship has
zero velocity and zero angle; only the ship's `x`, `y` and the camera are
restored, and the mount effect keeps velocities zero while preserving
position. -/
theorem initial_ship_state_zero_velocity :
    (∀ saved : Option SavedShipState,
      (getInitialGameState saved).ship.vx = 0 ∧
      (getInitialGameState saved).ship.vy = 0 ∧
      (getInitialGameState saved).ship.angle = 0) ∧
    (∀ s : SavedShipState,
      (getInitialGameState (some s)).ship.x = s.x ∧
      (getInitialGameState (some s)).ship.y = s.y ∧
      (getInitialGameState (some s)).camera.x = s.cameraX ∧
      (getInitialGameState (some s)).camera.y = s.cameraY) ∧
    ((getInitialGameState none).ship.x = CENTER_X ∧
      (getInitialGameState none).ship.y = CENTER_Y + 200) ∧
    (∀ gs : GameState,
      (resetVelocityOnMount gs).ship.vx = 0 ∧
      (resetVelocityOnMount gs).ship.vy = 0 ∧
      (resetVelocityOnMount gs).ship.angle = 0 ∧
      (resetVelocityOnMount gs).ship.x = gs.ship.x ∧
      (resetVelocityOnMount gs).ship.y = gs.ship.y ∧
      (resetVelocityOnMount gs).camera = gs.camera) := by
  refine ⟨fun saved => ?_, fun s => ?_, ?_, fun gs => ?_⟩
  · cases saved <;> simp [getInitialGameState]
  · simp [getInitialGameState]
  · simp [getInitialGameState]
  · simp [resetVelocityOnMount]

/-! ## Projectiles and firing (lines 62-69, 121-122, 374-400, 2209-2226) -/

@[ext] structure Projectile where
  x : ℝ
  y : ℝ
  vx : ℝ
  vy : ℝ
  life : ℝ
  maxLife : ℝ

/-- The projectile literal built by `shootProjectile` (lines 381-388). -/
noncomputable def mkProjectile (ship : Ship) : Projectile :=
  { x := ship.x
    y := ship.y
    vx := Real.cos ship.angle * PROJECTILE_SPEED
    vy := Real.sin ship.angle * PROJECTILE_SPEED
    life := PROJECTILE_LIFETIME
    maxLife := PROJECTILE_LIFETIME }

/-- `SHOOT_COOLDOWN` (line 377), in milliseconds. -/
def SHOOT_COOLDOWN : ℤ := 333

structure ShootState where
  projectiles : List Projectile
  lastShootTime : ℤ

/-- `shootProjectile` (lines 375-400): fires only when at least
`SHOOT_COOLDOWN` ms have elapsed since the last successful shot. -/
noncomputable def shootProjectile (ship : Ship) (currentTime : ℤ) (s : ShootState) :
    ShootState :=
  if currentTime - s.lastShootTime ≥ SHOOT_COOLDOWN then
    { projectiles := s.projectiles ++ [mkProjectile ship]
      lastShootTime := currentTime }
  else s

lemma shoot_window_aux (ship : Ship) (t0 : ℤ) :
    ∀ ts : List ℤ, (∀ t ∈ ts, t < t0 + SHOOT_COOLDOWN) →
    ∀ s : ShootState, t0 ≤ s.lastShootTime →
      ts.foldl (fun st t => shootProjectile ship t st) s = s := by
  intro ts
  induction ts with
  | nil => intro _ s _; rfl
  | cons t rest ih =>
      intro hw s hs
      have ht : t < t0 + SHOOT_COOLDOWN := hw t (by simp)
      have hno : ¬ (t - s.lastShootTime ≥ SHOOT_COOLDOWN) := by omega
      simp only [List.foldl_cons, shootProjectile, if_neg hno]
      exact ih (fun t' ht' => hw t' (by simp [ht'])) s hs

/-- **C4.**  A shot is created iff the cooldown has elapsed; any sequence of
fire inputs inside one 333 ms window creates at most one projectile; ten
rapid-fire calls spaced 11 ms apart create exactly one projectile. -/
theorem fire_rate_limited :
    (∀ (ship : Ship) (t : ℤ) (s : ShootState),
      (t - s.lastShootTime ≥ SHOOT_COOLDOWN →
        (shootProjectile ship t s).projectiles.length = s.projectiles.length + 1 ∧
        (shootProjectile ship t s).lastShootTime = t) ∧
      (t - s.lastShootTime < SHOOT_COOLDOWN → shootProjectile ship t s = s)) ∧
    (∀ (ship : Ship) (t0 : ℤ) (ts : List ℤ) (s : ShootState),
      (∀ t ∈ ts, t0 ≤ t ∧ t < t0 + SHOOT_COOLDOWN) →
      (ts.foldl (fun st t => shootProjectile ship t st) s).projectiles.length ≤
        s.projectiles.length + 1) ∧
    (∀ ship : Ship,
      (([1000000, 1000011, 1000022, 1000033, 1000044, 1000055, 1000066, 1000077,
          1000088, 1000099] : List ℤ).foldl
        (fun st t => shootProjectile ship t st)
        ⟨[], 0⟩).projectiles.length = 1) := by
  refine ⟨fun ship t s => ⟨fun h => ?_, fun h => ?_⟩, ?_, fun ship => ?_⟩
  · simp [shootProjectile, if_pos h]
  · simp [shootProjectile, if_neg (by omega : ¬ t - s.lastShootTime ≥ SHOOT_COOLDOWN)]
  · intro ship t0 ts
    induction ts with
    | nil => intro s _; simp
    | cons t rest ih =>
        intro s hw
        rcases hw t (by simp) with ⟨ht0, htw⟩
        by_cases hfire : t - s.lastShootTime ≥ SHOOT_COOLDOWN
        · have hstep : shootProjectile ship t s =
              { projectiles := s.projectiles ++ [mkProjectile ship], lastShootTime := t } := by
            simp [shootProjectile, if_pos hfire]
          rw [List.foldl_cons, hstep,
            shoot_window_aux ship t0 rest (fun t' ht' => (hw t' (by simp [ht'])).2) _ (by simpa using ht0)]
          simp
        · rw [List.foldl_cons, (by simp [shootProjectile, if_neg hfire] :
              shootProjectile ship t s = s)]
          exact ih s (fun t' ht' => hw t' (by simp [ht']))
  · norm_num [List.foldl, shootProjectile, SHOOT_COOLDOWN]

/-- Witness for the C4 theorem: hypotheses discharged at concrete inputs. -/
theorem fire_rate_limited_witness :
    ((10:ℤ) - 0 < SHOOT_COOLDOWN) ∧
      shootProjectile ⟨0, 0, 0, 0, 0⟩ 10 ⟨[], 0⟩ = ⟨[], 0⟩ :=
  ⟨by norm_num [SHOOT_COOLDOWN],
   ((fire_rate_limited.1 ⟨0, 0, 0, 0, 0⟩ 10 ⟨[], 0⟩).2 (by norm_num [SHOOT_COOLDOWN]))⟩

/-! ## Delta-time derivation (lines 1838-1840 and 2209-2213) -/

/-- The main simulation step (line 1840):
`lastTime === 0 ? 16.67 : Math.min(rawDeltaTime, 33.33)` (milliseconds). -/
noncomputable def deltaTimeMs (lastTime currentTime : ℝ) : ℝ :=
  if lastTime = 0 then 16.67 else min (currentTime - lastTime) 33.33

/-- The projectile integration step (lines 2210-2213):
`(currentFrameTime - lastFrameTimeRef.current) / 1000` — in seconds, with
no clamp whatsoever. -/
noncomputable def projectileDeltaTime (lastFrameTime currentFrameTime : ℝ) : ℝ :=
  (currentFrameTime - lastFrameTime) / 1000

/-- **C5, counterexample.**  The projectile step for a raw 100 ms interval is
100 ms, not `min(100, 33.33) = 33.33` — entity state is *not* uniformly
advanced with a clamped step. -/
theorem projectile_step_unclamped :
    1000 * projectileDeltaTime 0 100 = 100 ∧
      ¬ 1000 * projectileDeltaTime 0 100 ≤ 33.33 ∧
      1000 * projectileDeltaTime 0 100 ≠ min 100 33.33 := by
  norm_num [projectileDeltaTime]

/-- **C5, amended.**  The main step `deltaTime` is `min(Δ, 33.33)` ms (hence
`≤ 33.33`) with `16.67` substituted on the very first frame, but the
projectile/NPC integration step is the raw unclamped inter-frame interval
(converted to seconds). -/
theorem deltaTime_clamp_props :
    (∀ lastTime currentTime : ℝ, lastTime ≠ 0 →
      deltaTimeMs lastTime currentTime = min (currentTime - lastTime) 33.33 ∧
      deltaTimeMs lastTime currentTime ≤ 33.33) ∧
    (∀ currentTime : ℝ, deltaTimeMs 0 currentTime = 16.67) ∧
    (∀ prev cur : ℝ, projectileDeltaTime prev cur = (cur - prev) / 1000) := by
  refine ⟨fun lastTime currentTime h => ⟨?_, ?_⟩, fun currentTime => ?_, fun prev cur => rfl⟩
  · simp [deltaTimeMs, if_neg h]
  · simp [deltaTimeMs, if_neg h]
  · simp [deltaTimeMs]

/-- Witness for the amended C5 theorem. -/
theorem deltaTime_clamp_witness :
    ((1 : ℝ) ≠ 0) ∧ deltaTimeMs 1 101 = min (101 - 1) 33.33 ∧ deltaTimeMs 1 101 ≤ 33.33 :=
  ⟨by norm_num, (deltaTime_clamp_props.1 1 101 (by norm_num)).1,
    (deltaTime_clamp_props.1 1 101 (by norm_num)).2⟩

/-! ## Frame skipping (lines 1842-1857, 2262 onward) -/

/-- The adaptive skip factor (lines 1847-1854). -/
def frameSkipFactor (isLargeCanvas : Bool) (refreshRate : ℕ) : ℕ :=
  if isLargeCanvas then
    (if refreshRate ≥ 144 then 3 else if refreshRate ≥ 120 then 2 else 1)
  else 1

/-- `skipFrame` (line 1856): `frameCounter.current % frameSkip !== 0`. -/
def skipFrameFlag (frameCounter frameSkip : ℕ) : Bool :=
  frameCounter % frameSkip != 0

/-- Whether the tick executes the physics/input update (lines 1904-2011):
the `setGameState` physics update is unconditional in the loop body. -/
def tickRunsPhysics (_frameCounter : ℕ) (_isLargeCanvas : Bool) (_refreshRate : ℕ) : Bool :=
  true

/-- Whether the tick executes the expensive draw pass (`clearRect`, nebula
gradients, planets, ship, … from line 2262 onward).  The `skipFrame` flag of
line 1856 is never read again after being computed, so the draw pass runs on
every tick unconditionally. -/
def tickRunsDrawPass (_frameCounter : ℕ) (_isLargeCanvas : Bool) (_refreshRate : ℕ) : Bool :=
  true

/-- **C7, code evaluated at the failing input.**  On a large canvas at a
detected 144 Hz the skip factor is 3 and `skipFrame` is `true` at frame
counter 1, yet the draw pass still executes (the flag is dead code), while
physics also runs. -/
theorem draw_pass_not_gated_by_skipFrame :
    frameSkipFactor true 144 = 3 ∧
      skipFrameFlag 1 (frameSkipFactor true 144) = true ∧
      tickRunsDrawPass 1 true 144 = true ∧
      tickRunsPhysics 1 true 144 = true := by
  decide

/-! ## Projectile update loop (lines 2215-2226) -/

/-- One integration step for a single projectile (lines 2219-2221). -/
noncomputable def stepProjectile (dt : ℝ) (p : Projectile) : Projectile :=
  { p with
    x := normalizeCoord (p.x + p.vx * dt)
    y := normalizeCoord (p.y + p.vy * dt)
    life := p.life - dt }

/-- The projectile update loop (lines 2217-2226): every projectile advances by
`dt` seconds and is removed once `life ≤ 0`. -/
noncomputable def updateProjectiles (dt : ℝ) (ps : List Projectile) : List Projectile :=
  (ps.map (stepProjectile dt)).filter (fun p => 0 < p.life)

/-- The state of a projectile fired from `ship` after `T` seconds of flight
(one or more integration steps). -/
noncomputable def advancedProjectile (ship : Ship) (T : ℝ) : Projectile :=
  { x := normalizeCoord (ship.x + Real.cos ship.angle * PROJECTILE_SPEED * T)
    y := normalizeCoord (ship.y + Real.sin ship.angle * PROJECTILE_SPEED * T)
    vx := Real.cos ship.angle * PROJECTILE_SPEED
    vy := Real.sin ship.angle * PROJECTILE_SPEED
    life := PROJECTILE_LIFETIME - T
    maxLife := PROJECTILE_LIFETIME }

lemma updateProjectiles_nil (dt : ℝ) : updateProjectiles dt [] = [] := rfl

lemma foldl_updateProjectiles_nil (dts : List ℝ) :
    dts.foldl (fun ps d => updateProjectiles d ps) [] = [] := by
  induction dts with
  | nil => rfl
  | cons d rest ih => simpa [updateProjectiles_nil] using ih

lemma updateProjectiles_singleton (dt : ℝ) (p : Projectile) :
    updateProjectiles dt [p] =
      if 0 < p.life - dt then [stepProjectile dt p] else [] := by
  unfold updateProjectiles
  by_cases h : 0 < p.life - dt
  · rw [if_pos h]
    simp [List.filter, stepProjectile, h]
  · rw [if_neg h]
    simp [List.filter, stepProjectile, h]

lemma stepProjectile_advanced (ship : Ship) (A d : ℝ) :
    stepProjectile d (advancedProjectile ship A) = advancedProjectile ship (A + d) := by
  unfold stepProjectile advancedProjectile
  ext <;> simp only
  · rw [normalizeCoord_add_left]
    congr 1
    ring
  · rw [normalizeCoord_add_left]
    congr 1
    ring
  · ring

lemma projectile_fold_aux (ship : Ship) :
    ∀ dts : List ℝ, (∀ d ∈ dts, 0 ≤ d) →
    ∀ A : ℝ, A < PROJECTILE_LIFETIME →
      dts.foldl (fun ps d => updateProjectiles d ps) [advancedProjectile ship A] =
        if A + dts.sum < PROJECTILE_LIFETIME then [advancedProjectile ship (A + dts.sum)]
        else [] := by
  intro dts
  induction dts with
  | nil =>
      intro _ A hA
      simp [hA]
  | cons d rest ih =>
      intro hnn A hA
      have hd : 0 ≤ d := hnn d (by simp)
      have hrest : ∀ d' ∈ rest, 0 ≤ d' := fun d' hd' => hnn d' (by simp [hd'])
      have hrsum : 0 ≤ rest.sum := List.sum_nonneg hrest
      rw [List.foldl_cons, updateProjectiles_singleton]
      simp only [advancedProjectile, List.sum_cons]
      by_cases hAd : A + d < PROJECTILE_LIFETIME
      · rw [if_pos (show (0:ℝ) < PROJECTILE_LIFETIME - A - d by linarith)]
        have := stepProjectile_advanced ship A d
        simp only [advancedProjectile] at this
        rw [this]
        have := ih hrest (A + d) hAd
        simp only [advancedProjectile] at this
        rw [this]
        by_cases hfin : A + (d + rest.sum) < PROJECTILE_LIFETIME
        · rw [if_pos (by linarith), if_pos hfin]
          norm_num [add_assoc]
        · rw [if_neg (by linarith), if_neg hfin]
      · rw [if_neg (show ¬ (0:ℝ) < PROJECTILE_LIFETIME - A - d by linarith)]
        rw [foldl_updateProjectiles_nil]
        rw [if_neg (by linarith)]

/-- **C3.**  A projectile fired from `ship` survives any sequence of
nonnegative integration steps totalling `T` seconds iff `T <
PROJECTILE_LIFETIME`; while alive its velocity is the constant firing vector
of magnitude `PROJECTILE_SPEED` and it sits at
`start + velocity · T` (wrapped); it is removed at the first step making the
cumulative elapsed time reach the lifetime. -/
theorem projectile_lifetime_and_motion :
    ∀ (ship : Ship) (dts : List ℝ), (∀ d ∈ dts, 0 ≤ d) → dts ≠ [] →
      (dts.sum < PROJECTILE_LIFETIME →
        dts.foldl (fun ps d => updateProjectiles d ps) [mkProjectile ship] =
          [advancedProjectile ship dts.sum]) ∧
      (PROJECTILE_LIFETIME ≤ dts.sum →
        dts.foldl (fun ps d => updateProjectiles d ps) [mkProjectile ship] = []) ∧
      (mkProjectile ship).vx ^ 2 + (mkProjectile ship).vy ^ 2 = PROJECTILE_SPEED ^ 2 ∧
      (advancedProjectile ship dts.sum).vx = (mkProjectile ship).vx ∧
      (advancedProjectile ship dts.sum).vy = (mkProjectile ship).vy := by
  intro ship dts hnn hne
  have hmag : (mkProjectile ship).vx ^ 2 + (mkProjectile ship).vy ^ 2
      = PROJECTILE_SPEED ^ 2 := by
    simp only [mkProjectile]
    have h := Real.sin_sq_add_cos_sq ship.angle
    nlinarith [h]
  obtain ⟨d, rest, rfl⟩ := List.exists_cons_of_ne_nil hne
  have hd : 0 ≤ d := hnn d (by simp)
  have hrest : ∀ d' ∈ rest, 0 ≤ d' := fun d' hd' => hnn d' (by simp [hd'])
  have hrsum : 0 ≤ rest.sum := List.sum_nonneg hrest
  have hfirst : updateProjectiles d [mkProjectile ship] =
      if 0 < PROJECTILE_LIFETIME - d then [advancedProjectile ship d] else [] := by
    rw [updateProjectiles_singleton]
    by_cases h : 0 < PROJECTILE_LIFETIME - d
    · rw [if_pos (by simpa [mkProjectile] using h), if_pos h]
      unfold stepProjectile mkProjectile advancedProjectile
      simp only
    · rw [if_neg (by simpa [mkProjectile] using h), if_neg h]
  refine ⟨?_, ?_, hmag, rfl, rfl⟩
  · intro hsum
    rw [List.sum_cons] at hsum
    have hdlt : d < PROJECTILE_LIFETIME := by linarith
    rw [List.foldl_cons, hfirst, if_pos (by linarith)]
    rw [projectile_fold_aux ship rest hrest d hdlt]
    rw [if_pos (show d + rest.sum < PROJECTILE_LIFETIME by linarith)]
    rw [List.sum_cons]
  · intro hsum
    rw [List.sum_cons] at hsum
    rw [List.foldl_cons, hfirst]
    by_cases hdlt : 0 < PROJECTILE_LIFETIME - d
    · rw [if_pos hdlt]
      rw [projectile_fold_aux ship rest hrest d (by linarith)]
      rw [if_neg (by linarith)]
    · rw [if_neg hdlt, foldl_updateProjectiles_nil]

/-- Witness for the C3 theorem: two 1-second steps on a freshly fired
projectile. -/
theorem projectile_lifetime_witness :
    (∀ d ∈ ([1, 1] : List ℝ), 0 ≤ d) ∧ (([1, 1] : List ℝ) ≠ []) ∧
      (([1, 1] : List ℝ).sum < PROJECTILE_LIFETIME →
        ([1, 1] : List ℝ).foldl (fun ps d => updateProjectiles d ps)
            [mkProjectile ⟨0, 0, 0, 0, 0⟩] =
          [advancedProjectile ⟨0, 0, 0, 0, 0⟩ ([1, 1] : List ℝ).sum]) := by
  refine ⟨by norm_num, by simp, ?_⟩
  exact (projectile_lifetime_and_motion ⟨0, 0, 0, 0, 0⟩ [1, 1] (by norm_num) (by simp)).1

/-! ## Refresh-rate detection (lines 186-230 and 1824-1834) -/

/-- JavaScript `Math.round`: round half toward positive infinity. -/
noncomputable def jsRound (x : ℝ) : ℤ := ⌊x + 1 / 2⌋

/-- `commonRates` (line 215). -/
def commonRates : List ℤ := [60, 75, 90, 120, 144, 165, 240]

/-- The `commonRates.reduce` of lines 216-221: JavaScript `reduce` without an
initial value seeds with the first element and folds the rest; a later
candidate replaces the accumulator only when *strictly* closer. -/
def closestRate (detected : ℤ) : ℤ :=
  (commonRates.tail).foldl
    (fun prev curr => if |curr - detected| < |prev - detected| then curr else prev)
    (commonRates.headD 0)

/-- Refresh-rate detector state: `refreshRateRef` (line 189, default 60),
`refreshRateDetectedRef` (line 191), `frameTimeHistoryRef` (line 190) and the
loop-local `lastTime` (line 1815). -/
structure FrameClock where
  refreshRate : ℤ
  refreshRateDetected : Bool
  frameTimeHistory : List ℝ
  lastTime : ℝ

/-- `detectRefreshRate` (lines 204-230). -/
noncomputable def detectRefreshRate (s : FrameClock) : FrameClock :=
  if s.refreshRateDetected then s
  else if s.frameTimeHistory.length ≥ 60 then
    let avgFrameTime := s.frameTimeHistory.sum / (s.frameTimeHistory.length : ℝ)
    let detected := jsRound (1000 / avgFrameTime)
    { s with refreshRate := closestRate detected, refreshRateDetected := true }
  else s

/-- The per-frame sampling step of the game loop (lines 1824-1834 plus the
`lastTime = currentTime` of line 1889). -/
noncomputable def frameClockStep (currentTime : ℝ) (s : FrameClock) : FrameClock :=
  let s' :=
    if ¬s.refreshRateDetected ∧ s.lastTime > 0 then
      (let frameTime := currentTime - s.lastTime
       if frameTime > 0 ∧ frameTime < 50 then
         (let s'' := { s with frameTimeHistory := s.frameTimeHistory ++ [frameTime] }
          if s''.frameTimeHistory.length ≥ 60 then detectRefreshRate s'' else s'')
       else s)
    else s
  { s' with lastTime := currentTime }

lemma frameClockStep_of_detected {s : FrameClock} (h : s.refreshRateDetected = true)
    (t : ℝ) : frameClockStep t s = { s with lastTime := t } := by
  unfold frameClockStep
  rw [if_neg (by simp [h])]

lemma closestRate_mem (d : ℤ) : closestRate d ∈ commonRates := by
  unfold closestRate commonRates
  simp only [List.foldl, List.tail_cons, List.headD_cons]
  split_ifs <;> decide

set_option maxHeartbeats 1000000 in
lemma closestRate_min (d : ℤ) : ∀ c ∈ commonRates, |closestRate d - d| ≤ |c - d| := by
  unfold closestRate commonRates
  simp only [List.foldl, List.tail_cons, List.headD_cons, List.mem_cons,
    List.not_mem_nil, forall_eq_or_imp, forall_eq, or_false, Int.abs_eq_natAbs]
  split_ifs <;> omega

set_option maxHeartbeats 1000000 in
lemma closestRate_tie (d : ℤ) :
    ∀ c ∈ commonRates, |c - d| = |closestRate d - d| → closestRate d ≤ c := by
  unfold closestRate commonRates
  simp only [List.foldl, List.tail_cons, List.headD_cons, List.mem_cons,
    List.not_mem_nil, forall_eq_or_imp, forall_eq, or_false, Int.abs_eq_natAbs]
  split_ifs <;> omega

/-- **C6.**  (i) Once detected, further frames never change the locked rate;
(ii) with ≥ 60 samples the detector locks `closestRate(round(1000/mean))`;
(iii) `closestRate` picks the member of the candidate set nearest by absolute
difference, ties resolved to the first encountered (= smallest, as
`commonRates` is listed in increasing order); (iv) a mean implying 119 Hz
locks to 120. -/
theorem refresh_rate_detection :
    (∀ (s : FrameClock) (ts : List ℝ), s.refreshRateDetected = true →
      (ts.foldl (fun st t => frameClockStep t st) s).refreshRate = s.refreshRate ∧
      (ts.foldl (fun st t => frameClockStep t st) s).refreshRateDetected = true) ∧
    (∀ s : FrameClock, s.refreshRateDetected = false →
      s.frameTimeHistory.length ≥ 60 →
      (detectRefreshRate s).refreshRate =
        closestRate (jsRound (1000 / (s.frameTimeHistory.sum / (s.frameTimeHistory.length : ℝ)))) ∧
      (detectRefreshRate s).refreshRateDetected = true) ∧
    (∀ d : ℤ, closestRate d ∈ commonRates ∧
      (∀ c ∈ commonRates, |closestRate d - d| ≤ |c - d|) ∧
      (∀ c ∈ commonRates, |c - d| = |closestRate d - d| → closestRate d ≤ c)) ∧
    (detectRefreshRate ⟨60, false, List.replicate 60 ((1000:ℝ)/119), 0⟩).refreshRate = 120 := by
  have hdetect : ∀ s : FrameClock, s.refreshRateDetected = false →
      s.frameTimeHistory.length ≥ 60 →
      (detectRefreshRate s).refreshRate =
        closestRate (jsRound (1000 / (s.frameTimeHistory.sum / (s.frameTimeHistory.length : ℝ)))) ∧
      (detectRefreshRate s).refreshRateDetected = true := by
    intro s hd hl
    unfold detectRefreshRate
    rw [if_neg (by simp [hd]), if_pos hl]
    exact ⟨rfl, rfl⟩
  refine ⟨?_, hdetect, fun d => ⟨closestRate_mem d, closestRate_min d, closestRate_tie d⟩, ?_⟩
  · intro s ts hs
    induction ts generalizing s with
    | nil => exact ⟨rfl, hs⟩
    | cons t rest ih =>
        rw [List.foldl_cons, frameClockStep_of_detected hs t]
        exact ih _ hs
  · have h := hdetect ⟨60, false, List.replicate 60 ((1000:ℝ)/119), 0⟩ rfl (by simp)
    rw [h.1]
    have hsum : (List.replicate 60 ((1000:ℝ)/119)).sum = 60 * (1000/119) := by
      rw [List.sum_replicate, nsmul_eq_mul]
      norm_num
    have hlen : ((List.replicate 60 ((1000:ℝ)/119)).length : ℝ) = 60 := by simp
    have havg : (List.replicate 60 ((1000:ℝ)/119)).sum /
        ((List.replicate 60 ((1000:ℝ)/119)).length : ℝ) = 1000/119 := by
      rw [hsum, hlen]
      norm_num
    rw [havg]
    have hinv : (1000 : ℝ) / (1000/119) = 119 := by norm_num
    rw [hinv]
    have hround : jsRound (119 : ℝ) = 119 := by
      unfold jsRound
      rw [Int.floor_eq_iff]
      constructor <;> norm_num
    rw [hround]
    decide

/-- Witness for the C6 theorem: the detector applied to sixty samples of
`1000/119` ms. -/
theorem refresh_rate_detection_witness :
    ((⟨60, false, List.replicate 60 ((1000:ℝ)/119), 0⟩ : FrameClock).refreshRateDetected
        = false) ∧
    ((⟨60, false, List.replicate 60 ((1000:ℝ)/119), 0⟩ : FrameClock).frameTimeHistory.length
        ≥ 60) ∧
    (detectRefreshRate
        ⟨60, false, List.replicate 60 ((1000:ℝ)/119), 0⟩).refreshRateDetected = true :=
  ⟨rfl, by simp,
    (refresh_rate_detection.2.1 ⟨60, false, List.replicate 60 ((1000:ℝ)/119), 0⟩ rfl
      (by simp)).2⟩

/-! ## Per-tick ship physics (lines 1904-2011) -/

/-- JavaScript `Math.atan2(y, x)`, modelled as the argument of `x + iy`. -/
noncomputable def jsAtan2 (y x : ℝ) : ℝ := Complex.arg ⟨x, y⟩

/-- The per-tick inputs read by the physics update: pointer state, modal and
landing flags, the barrier toggle, and the canvas half-extents. -/
structure TickInput where
  hasMouseMoved : Bool
  mouseX : ℝ
  mouseY : ℝ
  mouseInWindow : Bool
  showLandingModal : Bool
  isLandingAnimationActive : Bool
  isBarrierCollisionEnabled : Bool
  centerX : ℝ
  centerY : ℝ

/-- Result of the barrier-collision block. -/
structure BarrierResult where
  x : ℝ
  y : ℝ
  vx : ℝ
  vy : ℝ

/-- The barrier-collision branch (lines 1942-1999): the tentative position
`(newX, newY)` is accepted when inside the barrier; otherwise the attempted
movement is decomposed against the outward normal at the current position,
the tangential part is always applied, the radial part only when directed
toward the center, and any outward velocity component is removed. -/
noncomputable def applyBarrier (shipX shipY vx vy newX newY : ℝ) : BarrierResult :=
  let distanceFromCenter :=
    Real.sqrt ((newX - CENTER_X) ^ 2 + (newY - CENTER_Y) ^ 2)
  if distanceFromCenter ≤ BARRIER_RADIUS then
    ⟨newX, newY, vx, vy⟩
  else
    let centerToShipX := shipX - CENTER_X
    let centerToShipY := shipY - CENTER_Y
    let centerToShipDist := Real.sqrt (centerToShipX ^ 2 + centerToShipY ^ 2)
    if centerToShipDist > 0 then
      let normalX := centerToShipX / centerToShipDist
      let normalY := centerToShipY / centerToShipDist
      let movementX := newX - shipX
      let movementY := newY - shipY
      let radialComponent := movementX * normalX + movementY * normalY
      let tangentX := movementX - radialComponent * normalX
      let tangentY := movementY - radialComponent * normalY
      let x1 := shipX + tangentX
      let y1 := shipY + tangentY
      let x2 := if radialComponent < 0 then x1 + radialComponent * normalX else x1
      let y2 := if radialComponent < 0 then y1 + radialComponent * normalY else y1
      let velocityDotNormal := vx * normalX + vy * normalY
      let vx2 := if velocityDotNormal > 0 then vx - velocityDotNormal * normalX else vx
      let vy2 := if velocityDotNormal > 0 then vy - velocityDotNormal * normalY else vy
      ⟨x2, y2, vx2, vy2⟩
    else ⟨shipX, shipY, vx, vy⟩

/-- The pointer-driven angle/thrust step (lines 1907-1928): the facing angle
follows the pointer, and thrust scaled by `min(distance/300, 1)` is added
when the pointer is inside the window and farther than 10 world units. -/
noncomputable def applyPointerInput (inp : TickInput) (gs : GameState) : Ship :=
  if inp.hasMouseMoved && !inp.showLandingModal && !inp.isLandingAnimationActive then
    let worldMouseX := inp.mouseX - inp.centerX + gs.camera.x
    let worldMouseY := inp.mouseY - inp.centerY + gs.camera.y
    let dx := getWrappedDistance worldMouseX gs.ship.x
    let dy := getWrappedDistance worldMouseY gs.ship.y
    let distance := Real.sqrt (dx * dx + dy * dy)
    if inp.mouseInWindow ∧ distance > 10 then
      { gs.ship with
        angle := jsAtan2 dy dx
        vx := gs.ship.vx + dx / distance * (SHIP_MAX_SPEED * min (distance / 300) 1) * 0.067
        vy := gs.ship.vy + dy / distance * (SHIP_MAX_SPEED * min (distance / 300) 1) * 0.067 }
    else { gs.ship with angle := jsAtan2 dy dx }
  else gs.ship

/-- `currentFriction` (line 1933). -/
noncomputable def tickFriction (inp : TickInput) : ℝ :=
  if inp.mouseInWindow then FRICTION else 0.995

/-- One tick of the ship physics update (lines 1904-2011): pointer thrust,
friction, tentative position, optional barrier collision, wrap
normalization.  The camera update of the second `setGameState` is separate
and does not touch the ship. -/
noncomputable def shipPhysicsTick (inp : TickInput) (gs : GameState) : GameState :=
  let ship1 := applyPointerInput inp gs
  if inp.isLandingAnimationActive then { gs with ship := ship1 }
  else
    let vx2 := ship1.vx * tickFriction inp
    let vy2 := ship1.vy * tickFriction inp
    let newX := ship1.x + vx2
    let newY := ship1.y + vy2
    let br :=
      if inp.isBarrierCollisionEnabled then
        applyBarrier ship1.x ship1.y vx2 vy2 newX newY
      else ⟨newX, newY, vx2, vy2⟩
    { gs with
      ship := { x := normalizeCoord br.x, y := normalizeCoord br.y,
                angle := ship1.angle, vx := br.vx, vy := br.vy } }

lemma applyPointerInput_pos (inp : TickInput) (gs : GameState) :
    (applyPointerInput inp gs).x = gs.ship.x ∧
    (applyPointerInput inp gs).y = gs.ship.y := by
  simp only [applyPointerInput]
  split_ifs <;> simp

lemma normalizeCoord_of_range {x : ℝ} (h0 : 0 ≤ x) (h1 : x < WORLD_SIZE) :
    normalizeCoord x = x := by
  rw [normalizeCoord_eq_fract,
    Int.fract_eq_self.mpr ⟨div_nonneg h0 WORLD_SIZE_pos.le,
      (div_lt_one WORLD_SIZE_pos).mpr h1⟩]
  rw [mul_div_cancel₀ _ WORLD_SIZE_pos.ne']

lemma sqrt_1690000 : Real.sqrt 1690000 = 1300 := by
  rw [show (1690000 : ℝ) = 1300 ^ 2 by norm_num]
  exact Real.sqrt_sq (by norm_num)

lemma sqrt_250000 : Real.sqrt 250000 = 500 := by
  rw [show (250000 : ℝ) = 500 ^ 2 by norm_num]
  exact Real.sqrt_sq (by norm_num)

/-- **C2, counterexample.**  A ship state 500 units from the world center
(inside the 600-unit barrier) whose velocity is purely tangential after
friction (`vy = 15000/11`, so `0.88 · vy = 1200`) is, after a single tick
with collision enabled, 1300 units from the center: tangential movement is
applied in full against the normal at the *old* position, so one update can
leave the ship far outside the barrier — there is no uniform negligible
epsilon. -/
theorem barrier_containment_fails :
    ((50500 : ℝ) - CENTER_X) ^ 2 + ((50000 : ℝ) - CENTER_Y) ^ 2 ≤ BARRIER_RADIUS ^ 2 ∧
    ((shipPhysicsTick ⟨false, 0, 0, true, false, false, true, 0, 0⟩
        ⟨⟨50500, 50000, 0, 0, 15000 / 11⟩, ⟨0, 0⟩⟩).ship.x - CENTER_X) ^ 2 +
      ((shipPhysicsTick ⟨false, 0, 0, true, false, false, true, 0, 0⟩
        ⟨⟨50500, 50000, 0, 0, 15000 / 11⟩, ⟨0, 0⟩⟩).ship.y - CENTER_Y) ^ 2 =
      1300 ^ 2 ∧
    (BARRIER_RADIUS + 100) ^ 2 < 1300 ^ 2 := by
  have hship1 : applyPointerInput ⟨false, 0, 0, true, false, false, true, 0, 0⟩
      ⟨⟨50500, 50000, 0, 0, 15000 / 11⟩, ⟨0, 0⟩⟩ = ⟨50500, 50000, 0, 0, 15000 / 11⟩ := by
    unfold applyPointerInput
    simp
  have hbar : applyBarrier 50500 50000 0 1200 50500 51200 = ⟨50500, 51200, 0, 1200⟩ := by
    unfold applyBarrier
    have h1 : Real.sqrt (((51200:ℝ) - 50000) ^ 2 + ((50500:ℝ) - 50000) ^ 2) = 1300 := by
      rw [show ((51200:ℝ) - 50000) ^ 2 + ((50500:ℝ) - 50000) ^ 2 = 1690000 by norm_num]
      exact sqrt_1690000
    simp only [CENTER_X, CENTER_Y, WORLD_SIZE]
    rw [show ((50500:ℝ) - 100000 / 2) ^ 2 + ((51200:ℝ) - 100000 / 2) ^ 2 = 1690000 by
      norm_num]
    rw [sqrt_1690000, if_neg (by norm_num [BARRIER_RADIUS])]
    rw [show ((50500:ℝ) - 100000 / 2) ^ 2 + ((50000:ℝ) - 100000 / 2) ^ 2 = 250000 by
      norm_num]
    rw [sqrt_250000, if_pos (by norm_num : (500:ℝ) > 0)]
    norm_num
  refine ⟨by norm_num [CENTER_X, CENTER_Y, WORLD_SIZE, BARRIER_RADIUS], ?_, by
    norm_num [BARRIER_RADIUS]⟩
  unfold shipPhysicsTick
  rw [hship1]
  simp only [Bool.false_eq_true, if_false]
  have hfr : tickFriction ⟨false, 0, 0, true, false, false, true, 0, 0⟩ = FRICTION := rfl
  rw [hfr]
  have hvx : (0 : ℝ) * FRICTION = 0 := by ring
  have hvy : (15000 / 11 : ℝ) * FRICTION = 1200 := by norm_num [FRICTION]
  simp only [hvx, hvy, add_zero]
  rw [show (50000 : ℝ) + 1200 = 51200 by norm_num]
  simp only [if_true]
  rw [hbar]
  have hnx : normalizeCoord 50500 = 50500 :=
    normalizeCoord_of_range (by norm_num) (by norm_num [WORLD_SIZE])
  have hny : normalizeCoord 51200 = 51200 :=
    normalizeCoord_of_range (by norm_num) (by norm_num [WORLD_SIZE])
  rw [hnx, hny]
  norm_num [CENTER_X, CENTER_Y, WORLD_SIZE]

/-- Distance-squared after a tangential slide along a unit normal. -/
lemma tangent_step_distSq (d vx vy nx ny M R : ℝ) (hn : nx ^ 2 + ny ^ 2 = 1)
    (hdR : d ^ 2 ≤ R ^ 2) (hv : vx ^ 2 + vy ^ 2 ≤ M ^ 2) :
    (d * nx + (vx - (vx * nx + vy * ny) * nx)) ^ 2 +
      (d * ny + (vy - (vx * nx + vy * ny) * ny)) ^ 2 ≤ R ^ 2 + M ^ 2 := by
  have key : (d * nx + (vx - (vx * nx + vy * ny) * nx)) ^ 2 +
      (d * ny + (vy - (vx * nx + vy * ny) * ny)) ^ 2
      = d ^ 2 - (vx * nx + vy * ny) ^ 2 + (vx ^ 2 + vy ^ 2) +
        (d - (vx * nx + vy * ny)) ^ 2 * (nx ^ 2 + ny ^ 2 - 1) := by ring
  rw [key, hn]
  nlinarith [sq_nonneg (vx * nx + vy * ny)]

lemma applyBarrier_distSq_bound (sx sy vx vy M : ℝ)
    (hs : (sx - CENTER_X) ^ 2 + (sy - CENTER_Y) ^ 2 ≤ BARRIER_RADIUS ^ 2)
    (hv : vx ^ 2 + vy ^ 2 ≤ M ^ 2) :
    ((applyBarrier sx sy vx vy (sx + vx) (sy + vy)).x - CENTER_X) ^ 2 +
      ((applyBarrier sx sy vx vy (sx + vx) (sy + vy)).y - CENTER_Y) ^ 2 ≤
      BARRIER_RADIUS ^ 2 + M ^ 2 := by
  have hM2 : 0 ≤ M ^ 2 := by nlinarith [sq_nonneg vx, sq_nonneg vy]
  have hR0 : (0:ℝ) ≤ BARRIER_RADIUS := by norm_num [BARRIER_RADIUS]
  simp only [applyBarrier]
  by_cases hin : Real.sqrt ((sx + vx - CENTER_X) ^ 2 + (sy + vy - CENTER_Y) ^ 2)
      ≤ BARRIER_RADIUS
  · rw [if_pos hin]
    dsimp only
    have harg : 0 ≤ (sx + vx - CENTER_X) ^ 2 + (sy + vy - CENTER_Y) ^ 2 := by positivity
    nlinarith [Real.sq_sqrt harg,
      Real.sqrt_nonneg ((sx + vx - CENTER_X) ^ 2 + (sy + vy - CENTER_Y) ^ 2), hin, hR0]
  · rw [if_neg hin]
    by_cases hd : Real.sqrt ((sx - CENTER_X) ^ 2 + (sy - CENTER_Y) ^ 2) > 0
    · rw [if_pos hd]
      dsimp only
      have harg : 0 ≤ (sx - CENTER_X) ^ 2 + (sy - CENTER_Y) ^ 2 := by positivity
      have hd2 : Real.sqrt ((sx - CENTER_X) ^ 2 + (sy - CENTER_Y) ^ 2) ^ 2
          = (sx - CENTER_X) ^ 2 + (sy - CENTER_Y) ^ 2 := Real.sq_sqrt harg
      set d := Real.sqrt ((sx - CENTER_X) ^ 2 + (sy - CENTER_Y) ^ 2) with hdd
      have hdpos : 0 < d := hd
      have hdne : d ≠ 0 := ne_of_gt hdpos
      by_cases hr : (sx + vx - sx) * ((sx - CENTER_X) / d) +
          (sy + vy - sy) * ((sy - CENTER_Y) / d) < 0
      · -- inward radial: both components applied, net displacement = (vx, vy)
        simp only [if_pos hr]
        have hmul := mul_neg_of_pos_of_neg hdpos hr
        have heq : d * ((sx + vx - sx) * ((sx - CENTER_X) / d) +
            (sy + vy - sy) * ((sy - CENTER_Y) / d))
            = vx * (sx - CENTER_X) + vy * (sy - CENTER_Y) := by
          field_simp
        have hnum : vx * (sx - CENTER_X) + vy * (sy - CENTER_Y) < 0 := heq ▸ hmul
        nlinarith [hs, hv, hnum]
      · -- outward-or-zero radial: only the tangential part moves the ship
        simp only [if_neg hr]
        have hn : ((sx - CENTER_X) / d) ^ 2 + ((sy - CENTER_Y) / d) ^ 2 = 1 := by
          field_simp
          linarith [hd2]
        have hdR : d ^ 2 ≤ BARRIER_RADIUS ^ 2 := by rw [hd2]; exact hs
        have hkey := tangent_step_distSq d vx vy ((sx - CENTER_X) / d)
          ((sy - CENTER_Y) / d) M BARRIER_RADIUS hn hdR hv
        refine le_trans (le_of_eq ?_) hkey
        have hcx : d * ((sx - CENTER_X) / d) = sx - CENTER_X :=
          mul_div_cancel₀ _ hdne
        have hcy : d * ((sy - CENTER_Y) / d) = sy - CENTER_Y :=
          mul_div_cancel₀ _ hdne
        rw [show sx + (sx + vx - sx -
              ((sx + vx - sx) * ((sx - CENTER_X) / d) +
               (sy + vy - sy) * ((sy - CENTER_Y) / d)) * ((sx - CENTER_X) / d)) - CENTER_X
            = (sx - CENTER_X) + (vx -
              (vx * ((sx - CENTER_X) / d) + vy * ((sy - CENTER_Y) / d)) *
                ((sx - CENTER_X) / d)) by ring,
          show sy + (sy + vy - sy -
              ((sx + vx - sx) * ((sx - CENTER_X) / d) +
               (sy + vy - sy) * ((sy - CENTER_Y) / d)) * ((sy - CENTER_Y) / d)) - CENTER_Y
            = (sy - CENTER_Y) + (vy -
              (vx * ((sx - CENTER_X) / d) + vy * ((sy - CENTER_Y) / d)) *
                ((sy - CENTER_Y) / d)) by ring,
          hcx, hcy]
    · rw [if_neg hd]
      dsimp only
      nlinarith [hs, hM2]

/-- Per-tick containment: with collision enabled and the ship starting inside
the barrier, one physics tick whose post-friction movement has squared
magnitude at most `M²` leaves the squared distance from the center at most
`BARRIER_RADIUS² + M²`. -/
lemma barrier_tick_distSq (inp : TickInput) (gs : GameState) (M : ℝ)
    (hbar : inp.isBarrierCollisionEnabled = true)
    (hland : inp.isLandingAnimationActive = false)
    (hs : (gs.ship.x - CENTER_X) ^ 2 + (gs.ship.y - CENTER_Y) ^ 2 ≤ BARRIER_RADIUS ^ 2)
    (hv : ((applyPointerInput inp gs).vx * tickFriction inp) ^ 2 +
      ((applyPointerInput inp gs).vy * tickFriction inp) ^ 2 ≤ M ^ 2)
    (hM0 : 0 ≤ M) (hM : M ≤ 40000) :
    ((shipPhysicsTick inp gs).ship.x - CENTER_X) ^ 2 +
      ((shipPhysicsTick inp gs).ship.y - CENTER_Y) ^ 2 ≤
      BARRIER_RADIUS ^ 2 + M ^ 2 := by
  simp only [shipPhysicsTick]
  rw [if_neg (by simp [hland]), if_pos hbar]
  obtain ⟨hx, hy⟩ := applyPointerInput_pos inp gs
  rw [hx, hy]
  dsimp only
  have hbound := applyBarrier_distSq_bound gs.ship.x gs.ship.y
    ((applyPointerInput inp gs).vx * tickFriction inp)
    ((applyPointerInput inp gs).vy * tickFriction inp) M hs hv
  set br := applyBarrier gs.ship.x gs.ship.y
    ((applyPointerInput inp gs).vx * tickFriction inp)
    ((applyPointerInput inp gs).vy * tickFriction inp)
    (gs.ship.x + (applyPointerInput inp gs).vx * tickFriction inp)
    (gs.ship.y + (applyPointerInput inp gs).vy * tickFriction inp) with hbr
  have hCX : CENTER_X = 50000 := by norm_num [CENTER_X, WORLD_SIZE]
  have hCY : CENTER_Y = 50000 := by norm_num [CENTER_Y, WORLD_SIZE]
  have hRB : BARRIER_RADIUS = 600 := by norm_num [BARRIER_RADIUS]
  have hRM : BARRIER_RADIUS ^ 2 + M ^ 2 ≤ 40005 ^ 2 := by
    rw [hRB]
    nlinarith [hM, hM0]
  rw [hCX, hCY] at hbound ⊢
  have hx0 : 0 ≤ br.x := by
    nlinarith [hbound, sq_nonneg (br.y - 50000), hRM]
  have hx1 : br.x < WORLD_SIZE := by
    rw [show WORLD_SIZE = (100000:ℝ) by norm_num [WORLD_SIZE]]
    nlinarith [hbound, sq_nonneg (br.y - 50000), hRM]
  have hy0 : 0 ≤ br.y := by
    nlinarith [hbound, sq_nonneg (br.x - 50000), hRM]
  have hy1 : br.y < WORLD_SIZE := by
    rw [show WORLD_SIZE = (100000:ℝ) by norm_num [WORLD_SIZE]]
    nlinarith [hbound, sq_nonneg (br.x - 50000), hRM]
  rw [normalizeCoord_of_range hx0 hx1, normalizeCoord_of_range hy0 hy1]
  exact hbound

/-- On contact (attempted position outside the barrier, ship not at the exact
center), the barrier resolution never moves the ship outward radially, zeroes
any outward velocity component, and applies the tangential part of the
attempted movement in full. -/
lemma applyBarrier_contact (sx sy vx vy px py : ℝ)
    (hout : ¬ Real.sqrt ((px - CENTER_X) ^ 2 + (py - CENTER_Y) ^ 2) ≤ BARRIER_RADIUS)
    (hd : Real.sqrt ((sx - CENTER_X) ^ 2 + (sy - CENTER_Y) ^ 2) > 0) :
    ((applyBarrier sx sy vx vy px py).vx *
        ((sx - CENTER_X) / Real.sqrt ((sx - CENTER_X) ^ 2 + (sy - CENTER_Y) ^ 2)) +
      (applyBarrier sx sy vx vy px py).vy *
        ((sy - CENTER_Y) / Real.sqrt ((sx - CENTER_X) ^ 2 + (sy - CENTER_Y) ^ 2)) ≤ 0) ∧
    (((applyBarrier sx sy vx vy px py).x - sx) *
        ((sx - CENTER_X) / Real.sqrt ((sx - CENTER_X) ^ 2 + (sy - CENTER_Y) ^ 2)) +
      ((applyBarrier sx sy vx vy px py).y - sy) *
        ((sy - CENTER_Y) / Real.sqrt ((sx - CENTER_X) ^ 2 + (sy - CENTER_Y) ^ 2)) ≤ 0) ∧
    (((applyBarrier sx sy vx vy px py).x - sx) -
        (((applyBarrier sx sy vx vy px py).x - sx) *
            ((sx - CENTER_X) / Real.sqrt ((sx - CENTER_X) ^ 2 + (sy - CENTER_Y) ^ 2)) +
          ((applyBarrier sx sy vx vy px py).y - sy) *
            ((sy - CENTER_Y) / Real.sqrt ((sx - CENTER_X) ^ 2 + (sy - CENTER_Y) ^ 2))) *
          ((sx - CENTER_X) / Real.sqrt ((sx - CENTER_X) ^ 2 + (sy - CENTER_Y) ^ 2))
      = (px - sx) -
        ((px - sx) * ((sx - CENTER_X) / Real.sqrt ((sx - CENTER_X) ^ 2 + (sy - CENTER_Y) ^ 2)) +
          (py - sy) * ((sy - CENTER_Y) / Real.sqrt ((sx - CENTER_X) ^ 2 + (sy - CENTER_Y) ^ 2))) *
          ((sx - CENTER_X) / Real.sqrt ((sx - CENTER_X) ^ 2 + (sy - CENTER_Y) ^ 2))) ∧
    (((applyBarrier sx sy vx vy px py).y - sy) -
        (((applyBarrier sx sy vx vy px py).x - sx) *
            ((sx - CENTER_X) / Real.sqrt ((sx - CENTER_X) ^ 2 + (sy - CENTER_Y) ^ 2)) +
          ((applyBarrier sx sy vx vy px py).y - sy) *
            ((sy - CENTER_Y) / Real.sqrt ((sx - CENTER_X) ^ 2 + (sy - CENTER_Y) ^ 2))) *
          ((sy - CENTER_Y) / Real.sqrt ((sx - CENTER_X) ^ 2 + (sy - CENTER_Y) ^ 2))
      = (py - sy) -
        ((px - sx) * ((sx - CENTER_X) / Real.sqrt ((sx - CENTER_X) ^ 2 + (sy - CENTER_Y) ^ 2)) +
          (py - sy) * ((sy - CENTER_Y) / Real.sqrt ((sx - CENTER_X) ^ 2 + (sy - CENTER_Y) ^ 2))) *
          ((sy - CENTER_Y) / Real.sqrt ((sx - CENTER_X) ^ 2 + (sy - CENTER_Y) ^ 2))) := by
  have harg : 0 ≤ (sx - CENTER_X) ^ 2 + (sy - CENTER_Y) ^ 2 := by positivity
  have hd2 : Real.sqrt ((sx - CENTER_X) ^ 2 + (sy - CENTER_Y) ^ 2) ^ 2
      = (sx - CENTER_X) ^ 2 + (sy - CENTER_Y) ^ 2 := Real.sq_sqrt harg
  have hdne : Real.sqrt ((sx - CENTER_X) ^ 2 + (sy - CENTER_Y) ^ 2) ≠ 0 := ne_of_gt hd
  have hA : 0 < (sx - CENTER_X) ^ 2 + (sy - CENTER_Y) ^ 2 := hd2 ▸ pow_pos hd 2
  have hn : ((sx - CENTER_X) / Real.sqrt ((sx - CENTER_X) ^ 2 + (sy - CENTER_Y) ^ 2)) ^ 2 +
      ((sy - CENTER_Y) / Real.sqrt ((sx - CENTER_X) ^ 2 + (sy - CENTER_Y) ^ 2)) ^ 2 = 1 := by
    rw [div_pow, div_pow, div_add_div_same, hd2]
    exact div_self (ne_of_gt hA)
  simp only [applyBarrier]
  rw [if_neg hout, if_pos hd]
  dsimp only
  set d := Real.sqrt ((sx - CENTER_X) ^ 2 + (sy - CENTER_Y) ^ 2) with hdd
  refine ⟨?_, ?_, ?_, ?_⟩
  · -- outward velocity component is removed
    by_cases hvd : vx * ((sx - CENTER_X) / d) + vy * ((sy - CENTER_Y) / d) > 0
    · simp only [if_pos hvd]
      have heq : (vx - (vx * ((sx - CENTER_X) / d) + vy * ((sy - CENTER_Y) / d)) *
            ((sx - CENTER_X) / d)) * ((sx - CENTER_X) / d) +
          (vy - (vx * ((sx - CENTER_X) / d) + vy * ((sy - CENTER_Y) / d)) *
            ((sy - CENTER_Y) / d)) * ((sy - CENTER_Y) / d)
          = (vx * ((sx - CENTER_X) / d) + vy * ((sy - CENTER_Y) / d)) *
            (1 - (((sx - CENTER_X) / d) ^ 2 + ((sy - CENTER_Y) / d) ^ 2)) := by ring
      rw [heq, hn]
      simp
    · simp only [if_neg hvd]
      push_neg at hvd
      exact hvd
  · -- radial position change is never outward
    by_cases hr : (px - sx) * ((sx - CENTER_X) / d) + (py - sy) * ((sy - CENTER_Y) / d) < 0
    · simp only [if_pos hr]
      have heq : (sx + (px - sx -
            ((px - sx) * ((sx - CENTER_X) / d) + (py - sy) * ((sy - CENTER_Y) / d)) *
              ((sx - CENTER_X) / d)) +
            ((px - sx) * ((sx - CENTER_X) / d) + (py - sy) * ((sy - CENTER_Y) / d)) *
              ((sx - CENTER_X) / d) - sx) * ((sx - CENTER_X) / d) +
          (sy + (py - sy -
            ((px - sx) * ((sx - CENTER_X) / d) + (py - sy) * ((sy - CENTER_Y) / d)) *
              ((sy - CENTER_Y) / d)) +
            ((px - sx) * ((sx - CENTER_X) / d) + (py - sy) * ((sy - CENTER_Y) / d)) *
              ((sy - CENTER_Y) / d) - sy) * ((sy - CENTER_Y) / d)
          = (px - sx) * ((sx - CENTER_X) / d) + (py - sy) * ((sy - CENTER_Y) / d) := by
        ring
      rw [heq]
      linarith
    · simp only [if_neg hr]
      have heq : (sx + (px - sx -
            ((px - sx) * ((sx - CENTER_X) / d) + (py - sy) * ((sy - CENTER_Y) / d)) *
              ((sx - CENTER_X) / d)) - sx) * ((sx - CENTER_X) / d) +
          (sy + (py - sy -
            ((px - sx) * ((sx - CENTER_X) / d) + (py - sy) * ((sy - CENTER_Y) / d)) *
              ((sy - CENTER_Y) / d)) - sy) * ((sy - CENTER_Y) / d)
          = ((px - sx) * ((sx - CENTER_X) / d) + (py - sy) * ((sy - CENTER_Y) / d)) *
            (1 - (((sx - CENTER_X) / d) ^ 2 + ((sy - CENTER_Y) / d) ^ 2)) := by ring
      rw [heq, hn]
      simp
  · -- tangential x-component of the applied displacement equals the attempted one
    by_cases hr : (px - sx) * ((sx - CENTER_X) / d) + (py - sy) * ((sy - CENTER_Y) / d) < 0
    · simp only [if_pos hr]
      ring
    · simp only [if_neg hr]
      linear_combination (((px - sx) * ((sx - CENTER_X) / d) +
        (py - sy) * ((sy - CENTER_Y) / d)) * ((sx - CENTER_X) / d)) * hn
  · -- tangential y-component of the applied displacement equals the attempted one
    by_cases hr : (px - sx) * ((sx - CENTER_X) / d) + (py - sy) * ((sy - CENTER_Y) / d) < 0
    · simp only [if_pos hr]
      ring
    · simp only [if_neg hr]
      linear_combination (((px - sx) * ((sx - CENTER_X) / d) +
        (py - sy) * ((sy - CENTER_Y) / d)) * ((sy - CENTER_Y) / d)) * hn

/-- **C2, amended.**  With collision enabled and the ship inside the barrier,
a single tick whose post-friction movement has squared magnitude `≤ M²`
(`M ≤ 40000`) leaves the ship's squared distance from the world center at
most `BARRIER_RADIUS² + M²` — i.e. the overshoot is bounded by the per-tick
movement, not by a uniform negligible epsilon, and it can accumulate across
ticks; on contact the outward velocity component is zeroed, the radial
position change is never outward, and the tangential component of the
attempted movement is applied in full (tangential sliding remains
possible). -/
theorem barrier_containment_per_tick :
    (∀ (inp : TickInput) (gs : GameState) (M : ℝ),
      inp.isBarrierCollisionEnabled = true →
      inp.isLandingAnimationActive = false →
      (gs.ship.x - CENTER_X) ^ 2 + (gs.ship.y - CENTER_Y) ^ 2 ≤ BARRIER_RADIUS ^ 2 →
      ((applyPointerInput inp gs).vx * tickFriction inp) ^ 2 +
        ((applyPointerInput inp gs).vy * tickFriction inp) ^ 2 ≤ M ^ 2 →
      0 ≤ M → M ≤ 40000 →
      ((shipPhysicsTick inp gs).ship.x - CENTER_X) ^ 2 +
        ((shipPhysicsTick inp gs).ship.y - CENTER_Y) ^ 2 ≤
        BARRIER_RADIUS ^ 2 + M ^ 2) ∧
    (∀ sx sy vx vy px py : ℝ,
      ¬ Real.sqrt ((px - CENTER_X) ^ 2 + (py - CENTER_Y) ^ 2) ≤ BARRIER_RADIUS →
      Real.sqrt ((sx - CENTER_X) ^ 2 + (sy - CENTER_Y) ^ 2) > 0 →
      ((applyBarrier sx sy vx vy px py).vx *
          ((sx - CENTER_X) / Real.sqrt ((sx - CENTER_X) ^ 2 + (sy - CENTER_Y) ^ 2)) +
        (applyBarrier sx sy vx vy px py).vy *
          ((sy - CENTER_Y) / Real.sqrt ((sx - CENTER_X) ^ 2 + (sy - CENTER_Y) ^ 2)) ≤ 0) ∧
      (((applyBarrier sx sy vx vy px py).x - sx) *
          ((sx - CENTER_X) / Real.sqrt ((sx - CENTER_X) ^ 2 + (sy - CENTER_Y) ^ 2)) +
        ((applyBarrier sx sy vx vy px py).y - sy) *
          ((sy - CENTER_Y) / Real.sqrt ((sx - CENTER_X) ^ 2 + (sy - CENTER_Y) ^ 2)) ≤ 0) ∧
      (((applyBarrier sx sy vx vy px py).x - sx) -
          (((applyBarrier sx sy vx vy px py).x - sx) *
              ((sx - CENTER_X) / Real.sqrt ((sx - CENTER_X) ^ 2 + (sy - CENTER_Y) ^ 2)) +
            ((applyBarrier sx sy vx vy px py).y - sy) *
              ((sy - CENTER_Y) / Real.sqrt ((sx - CENTER_X) ^ 2 + (sy - CENTER_Y) ^ 2))) *
            ((sx - CENTER_X) / Real.sqrt ((sx - CENTER_X) ^ 2 + (sy - CENTER_Y) ^ 2))
        = (px - sx) -
          ((px - sx) *
              ((sx - CENTER_X) / Real.sqrt ((sx - CENTER_X) ^ 2 + (sy - CENTER_Y) ^ 2)) +
            (py - sy) *
              ((sy - CENTER_Y) / Real.sqrt ((sx - CENTER_X) ^ 2 + (sy - CENTER_Y) ^ 2))) *
            ((sx - CENTER_X) / Real.sqrt ((sx - CENTER_X) ^ 2 + (sy - CENTER_Y) ^ 2))) ∧
      (((applyBarrier sx sy vx vy px py).y - sy) -
          (((applyBarrier sx sy vx vy px py).x - sx) *
              ((sx - CENTER_X) / Real.sqrt ((sx - CENTER_X) ^ 2 + (sy - CENTER_Y) ^ 2)) +
            ((applyBarrier sx sy vx vy px py).y - sy) *
              ((sy - CENTER_Y) / Real.sqrt ((sx - CENTER_X) ^ 2 + (sy - CENTER_Y) ^ 2))) *
            ((sy - CENTER_Y) / Real.sqrt ((sx - CENTER_X) ^ 2 + (sy - CENTER_Y) ^ 2))
        = (py - sy) -
          ((px - sx) *
              ((sx - CENTER_X) / Real.sqrt ((sx - CENTER_X) ^ 2 + (sy - CENTER_Y) ^ 2)) +
            (py - sy) *
              ((sy - CENTER_Y) / Real.sqrt ((sx - CENTER_X) ^ 2 + (sy - CENTER_Y) ^ 2))) *
            ((sy - CENTER_Y) / Real.sqrt ((sx - CENTER_X) ^ 2 + (sy - CENTER_Y) ^ 2)))) :=
  ⟨fun inp gs M hbar hland hs hv hM0 hM =>
      barrier_tick_distSq inp gs M hbar hland hs hv hM0 hM,
   fun sx sy vx vy px py hout hd => applyBarrier_contact sx sy vx vy px py hout hd⟩

/-- Witness for the amended C2 theorem: a stationary ship at the world center
(tick containment) and the counterexample geometry (contact behavior). -/
theorem barrier_containment_per_tick_witness :
    ((⟨false, 0, 0, true, false, false, true, 0, 0⟩ : TickInput).isBarrierCollisionEnabled
        = true) ∧
    ((⟨false, 0, 0, true, false, false, true, 0, 0⟩ : TickInput).isLandingAnimationActive
        = false) ∧
    (((50000:ℝ) - CENTER_X) ^ 2 + ((50000:ℝ) - CENTER_Y) ^ 2 ≤ BARRIER_RADIUS ^ 2) ∧
    (((applyPointerInput ⟨false, 0, 0, true, false, false, true, 0, 0⟩
          ⟨⟨50000, 50000, 0, 0, 0⟩, ⟨0, 0⟩⟩).vx *
        tickFriction ⟨false, 0, 0, true, false, false, true, 0, 0⟩) ^ 2 +
      ((applyPointerInput ⟨false, 0, 0, true, false, false, true, 0, 0⟩
          ⟨⟨50000, 50000, 0, 0, 0⟩, ⟨0, 0⟩⟩).vy *
        tickFriction ⟨false, 0, 0, true, false, false, true, 0, 0⟩) ^ 2 ≤ (1:ℝ) ^ 2) ∧
    (((shipPhysicsTick ⟨false, 0, 0, true, false, false, true, 0, 0⟩
          ⟨⟨50000, 50000, 0, 0, 0⟩, ⟨0, 0⟩⟩).ship.x - CENTER_X) ^ 2 +
      ((shipPhysicsTick ⟨false, 0, 0, true, false, false, true, 0, 0⟩
          ⟨⟨50000, 50000, 0, 0, 0⟩, ⟨0, 0⟩⟩).ship.y - CENTER_Y) ^ 2 ≤
      BARRIER_RADIUS ^ 2 + (1:ℝ) ^ 2) ∧
    (¬ Real.sqrt (((50500:ℝ) - CENTER_X) ^ 2 + ((51200:ℝ) - CENTER_Y) ^ 2)
        ≤ BARRIER_RADIUS) ∧
    (Real.sqrt (((50500:ℝ) - CENTER_X) ^ 2 + ((50000:ℝ) - CENTER_Y) ^ 2) > 0) ∧
    ((applyBarrier 50500 50000 0 1200 50500 51200).vx *
        (((50500:ℝ) - CENTER_X) /
          Real.sqrt (((50500:ℝ) - CENTER_X) ^ 2 + ((50000:ℝ) - CENTER_Y) ^ 2)) +
      (applyBarrier 50500 50000 0 1200 50500 51200).vy *
        (((50000:ℝ) - CENTER_Y) /
          Real.sqrt (((50500:ℝ) - CENTER_X) ^ 2 + ((50000:ℝ) - CENTER_Y) ^ 2)) ≤ 0) := by
  have hap : applyPointerInput ⟨false, 0, 0, true, false, false, true, 0, 0⟩
      ⟨⟨50000, 50000, 0, 0, 0⟩, ⟨0, 0⟩⟩ = (⟨⟨50000, 50000, 0, 0, 0⟩, ⟨0, 0⟩⟩ : GameState).ship := by
    simp [applyPointerInput]
  have hv : ((applyPointerInput ⟨false, 0, 0, true, false, false, true, 0, 0⟩
        ⟨⟨50000, 50000, 0, 0, 0⟩, ⟨0, 0⟩⟩).vx *
      tickFriction ⟨false, 0, 0, true, false, false, true, 0, 0⟩) ^ 2 +
      ((applyPointerInput ⟨false, 0, 0, true, false, false, true, 0, 0⟩
        ⟨⟨50000, 50000, 0, 0, 0⟩, ⟨0, 0⟩⟩).vy *
      tickFriction ⟨false, 0, 0, true, false, false, true, 0, 0⟩) ^ 2 ≤ (1:ℝ) ^ 2 := by
    rw [hap]
    norm_num
  have hs : ((50000:ℝ) - CENTER_X) ^ 2 + ((50000:ℝ) - CENTER_Y) ^ 2 ≤ BARRIER_RADIUS ^ 2 := by
    norm_num [CENTER_X, CENTER_Y, WORLD_SIZE, BARRIER_RADIUS]
  have hout : ¬ Real.sqrt (((50500:ℝ) - CENTER_X) ^ 2 + ((51200:ℝ) - CENTER_Y) ^ 2)
      ≤ BARRIER_RADIUS := by
    rw [show ((50500:ℝ) - CENTER_X) ^ 2 + ((51200:ℝ) - CENTER_Y) ^ 2 = 1690000 by
        norm_num [CENTER_X, CENTER_Y, WORLD_SIZE],
      sqrt_1690000]
    norm_num [BARRIER_RADIUS]
  have hd : Real.sqrt (((50500:ℝ) - CENTER_X) ^ 2 + ((50000:ℝ) - CENTER_Y) ^ 2) > 0 := by
    rw [show ((50500:ℝ) - CENTER_X) ^ 2 + ((50000:ℝ) - CENTER_Y) ^ 2 = 250000 by
        norm_num [CENTER_X, CENTER_Y, WORLD_SIZE],
      sqrt_250000]
    norm_num
  refine ⟨rfl, rfl, hs, hv, ?_, hout, hd, ?_⟩
  · exact barrier_containment_per_tick.1 ⟨false, 0, 0, true, false, false, true, 0, 0⟩
      ⟨⟨50000, 50000, 0, 0, 0⟩, ⟨0, 0⟩⟩ 1 rfl rfl hs hv (by norm_num) (by norm_num)
  · exact (barrier_containment_per_tick.2 50500 50000 0 1200 50500 51200 hout hd).1

/-! ## Landing spiral animation (lines 2675-2742, completion 2680-2703) -/

/-- The planet record fields used by the landing animation and the pixel
hit-test (`id, x, y, size, interactionRadius` of the source `Planet`). -/
structure Planet where
  x : ℝ
  y : ℝ
  size : ℝ
  interactionRadius : ℝ

structure LandingAnimationData where
  planet : Planet
  startTime : ℝ
  duration : ℝ
  initialShipX : ℝ
  initialShipY : ℝ

/-- `progress = Math.min(elapsed / duration, 1)` (line 2678). -/
noncomputable def landingProgress (data : LandingAnimationData) (now : ℝ) : ℝ :=
  min ((now - data.startTime) / data.duration) 1

/-- The rendered ship world position during the landing animation
(lines 2704-2728), including the completion snap to the planet position
(lines 2690-2699). -/
noncomputable def landingShipPos (data : LandingAnimationData) (now : ℝ) : ℝ × ℝ :=
  if landingProgress data now ≥ 1 then (data.planet.x, data.planet.y)
  else
    let initialDx := data.initialShipX - data.planet.x
    let initialDy := data.initialShipY - data.planet.y
    let initialRadius := Real.sqrt (initialDx * initialDx + initialDy * initialDy)
    let orbitSpeed := (1 : ℝ)
    let initialAngle := jsAtan2 initialDy initialDx
    let angleProgress := initialAngle + landingProgress data now * orbitSpeed * Real.pi * 2
    let currentRadius := initialRadius * (1 - landingProgress data now * 0.9)
    (data.planet.x + Real.cos angleProgress * currentRadius,
     data.planet.y + Real.sin angleProgress * currentRadius)

/-- Distance of the animated ship from the planet center. -/
noncomputable def landingRadius (data : LandingAnimationData) (now : ℝ) : ℝ :=
  Real.sqrt (((landingShipPos data now).1 - data.planet.x) ^ 2 +
    ((landingShipPos data now).2 - data.planet.y) ^ 2)

/-- The completion branch of the animation (lines 2680-2703): once
`progress ≥ 1` the ship is snapped to the planet position with zero velocity
and the screen transition (`setCurrentPlanet`/`setCurrentScreen`) fires;
the `Bool` records that the transition setter was called. -/
noncomputable def landingTick (data : LandingAnimationData) (now : ℝ) (gs : GameState) :
    GameState × Bool :=
  if landingProgress data now ≥ 1 then
    ({ gs with
        ship := { gs.ship with
          x := data.planet.x, y := data.planet.y, vx := 0, vy := 0 } }, true)
  else (gs, false)

lemma jsAtan2_cos {y x : ℝ} (h : ¬(x = 0 ∧ y = 0)) :
    Real.cos (jsAtan2 y x) = x / Real.sqrt (x * x + y * y) := by
  unfold jsAtan2
  have hz : (⟨x, y⟩ : ℂ) ≠ 0 := by
    simp only [ne_eq, Complex.ext_iff, Complex.zero_re, Complex.zero_im]
    exact h
  rw [Complex.cos_arg hz, Complex.abs_apply, Complex.normSq_mk]

lemma jsAtan2_sin (y x : ℝ) :
    Real.sin (jsAtan2 y x) = y / Real.sqrt (x * x + y * y) := by
  unfold jsAtan2
  rw [Complex.sin_arg, Complex.abs_apply, Complex.normSq_mk]

lemma landingRadius_eq (data : LandingAnimationData) (now : ℝ)
    (h : landingProgress data now < 1) :
    landingRadius data now =
      Real.sqrt ((data.initialShipX - data.planet.x) * (data.initialShipX - data.planet.x) +
        (data.initialShipY - data.planet.y) * (data.initialShipY - data.planet.y)) *
      (1 - landingProgress data now * 0.9) := by
  unfold landingRadius
  simp only [landingShipPos]
  rw [if_neg (not_le.mpr h)]
  dsimp only
  have hkey : (data.planet.x + Real.cos (jsAtan2 (data.initialShipY - data.planet.y)
        (data.initialShipX - data.planet.x) + landingProgress data now * 1 * Real.pi * 2) *
        (Real.sqrt ((data.initialShipX - data.planet.x) * (data.initialShipX - data.planet.x) +
          (data.initialShipY - data.planet.y) * (data.initialShipY - data.planet.y)) *
          (1 - landingProgress data now * 0.9)) - data.planet.x) ^ 2 +
      (data.planet.y + Real.sin (jsAtan2 (data.initialShipY - data.planet.y)
        (data.initialShipX - data.planet.x) + landingProgress data now * 1 * Real.pi * 2) *
        (Real.sqrt ((data.initialShipX - data.planet.x) * (data.initialShipX - data.planet.x) +
          (data.initialShipY - data.planet.y) * (data.initialShipY - data.planet.y)) *
          (1 - landingProgress data now * 0.9)) - data.planet.y) ^ 2
      = (Real.sqrt ((data.initialShipX - data.planet.x) * (data.initialShipX - data.planet.x) +
          (data.initialShipY - data.planet.y) * (data.initialShipY - data.planet.y)) *
          (1 - landingProgress data now * 0.9)) ^ 2 *
        (Real.sin (jsAtan2 (data.initialShipY - data.planet.y)
            (data.initialShipX - data.planet.x) + landingProgress data now * 1 * Real.pi * 2) ^ 2 +
          Real.cos (jsAtan2 (data.initialShipY - data.planet.y)
            (data.initialShipX - data.planet.x) + landingProgress data now * 1 * Real.pi * 2) ^ 2) := by
    ring
  rw [hkey, Real.sin_sq_add_cos_sq, mul_one]
  exact Real.sqrt_sq (by
    have h09 : 0 ≤ 1 - landingProgress data now * 0.9 := by
      have : landingProgress data now ≤ 1 := min_le_right _ _
      nlinarith
    exact mul_nonneg (Real.sqrt_nonneg _) h09)

/-- **C8.**  For fixed initial position, planet and duration: at progress 0
the animated position is the initial ship position; at progress 1 it is the
planet position; the orbital radius is monotonically non-increasing in
elapsed time; and on completion the ship is snapped to the planet with zero
velocity and the screen-transition flag fires. -/
theorem landing_spiral_determinism :
    ∀ (data : LandingAnimationData) (gs : GameState), 0 < data.duration →
      landingShipPos data data.startTime = (data.initialShipX, data.initialShipY) ∧
      landingShipPos data (data.startTime + data.duration) = (data.planet.x, data.planet.y) ∧
      (∀ e1 e2 : ℝ, 0 ≤ e1 → e1 ≤ e2 →
        landingRadius data (data.startTime + e2) ≤ landingRadius data (data.startTime + e1)) ∧
      ((landingTick data (data.startTime + data.duration) gs).1.ship.x = data.planet.x ∧
        (landingTick data (data.startTime + data.duration) gs).1.ship.y = data.planet.y ∧
        (landingTick data (data.startTime + data.duration) gs).1.ship.vx = 0 ∧
        (landingTick data (data.startTime + data.duration) gs).1.ship.vy = 0 ∧
        (landingTick data (data.startTime + data.duration) gs).2 = true) := by
  intro data gs hdur
  have hdne : data.duration ≠ 0 := ne_of_gt hdur
  have hp0 : landingProgress data data.startTime = 0 := by
    unfold landingProgress
    rw [sub_self, zero_div]
    exact min_eq_left (by norm_num)
  have hp1 : landingProgress data (data.startTime + data.duration) = 1 := by
    unfold landingProgress
    rw [add_sub_cancel_left, div_self hdne]
    exact min_self 1
  refine ⟨?_, ?_, ?_, ?_⟩
  · -- position at progress 0
    simp only [landingShipPos]
    rw [hp0, if_neg (by norm_num : ¬ (0:ℝ) ≥ 1)]
    rw [show (0:ℝ) * 1 * Real.pi * 2 = 0 by ring, add_zero,
      show (1:ℝ) - 0 * 0.9 = 1 by norm_num, mul_one]
    by_cases h0 : data.initialShipX - data.planet.x = 0 ∧ data.initialShipY - data.planet.y = 0
    · rw [h0.1, h0.2]
      have hx : data.initialShipX = data.planet.x := by linarith [sub_eq_zero.mp h0.1]
      have hy : data.initialShipY = data.planet.y := by linarith [sub_eq_zero.mp h0.2]
      simp [hx, hy]
    · have hS : 0 < (data.initialShipX - data.planet.x) * (data.initialShipX - data.planet.x) +
          (data.initialShipY - data.planet.y) * (data.initialShipY - data.planet.y) := by
        rcases not_and_or.mp h0 with h | h
        · nlinarith [mul_self_pos.mpr h, mul_self_nonneg (data.initialShipY - data.planet.y)]
        · nlinarith [mul_self_pos.mpr h, mul_self_nonneg (data.initialShipX - data.planet.x)]
      have hSne : Real.sqrt ((data.initialShipX - data.planet.x) * (data.initialShipX - data.planet.x) +
          (data.initialShipY - data.planet.y) * (data.initialShipY - data.planet.y)) ≠ 0 :=
        ne_of_gt (Real.sqrt_pos.mpr hS)
      rw [jsAtan2_cos h0, jsAtan2_sin, div_mul_cancel₀ _ hSne, div_mul_cancel₀ _ hSne]
      simp only [Prod.mk.injEq]
      constructor <;> ring
  · -- position at progress 1
    simp only [landingShipPos]
    rw [hp1, if_pos (le_refl (1:ℝ))]
  · -- radius is monotonically non-increasing
    intro e1 e2 _ he12
    have hple : landingProgress data (data.startTime + e1) ≤
        landingProgress data (data.startTime + e2) := by
      unfold landingProgress
      rw [add_sub_cancel_left, add_sub_cancel_left]
      exact min_le_min (div_le_div_of_nonneg_right he12 hdur.le) (le_refl 1)
    by_cases hp2 : landingProgress data (data.startTime + e2) ≥ 1
    · have hpos : landingShipPos data (data.startTime + e2) = (data.planet.x, data.planet.y) := by
        simp only [landingShipPos]
        rw [if_pos hp2]
      unfold landingRadius
      rw [hpos]
      simp only [sub_self]
      rw [show ((0:ℝ)) ^ 2 + (0:ℝ) ^ 2 = 0 by norm_num, Real.sqrt_zero]
      exact Real.sqrt_nonneg _
    · push_neg at hp2
      have hp1lt : landingProgress data (data.startTime + e1) < 1 := lt_of_le_of_lt hple hp2
      rw [landingRadius_eq data _ hp1lt, landingRadius_eq data _ hp2]
      have hr0 : 0 ≤ Real.sqrt ((data.initialShipX - data.planet.x) *
          (data.initialShipX - data.planet.x) +
          (data.initialShipY - data.planet.y) * (data.initialShipY - data.planet.y)) :=
        Real.sqrt_nonneg _
      nlinarith [hr0, hple]
  · -- completion snap and transition
    simp only [landingTick]
    rw [hp1, if_pos (le_refl (1:ℝ))]
    exact ⟨rfl, rfl, rfl, rfl, rfl⟩

/-- Witness for the C8 theorem at a concrete animation record. -/
theorem landing_spiral_determinism_witness :
    (0 : ℝ) < 1000 ∧
      landingShipPos ⟨⟨0, 0, 10, 50⟩, 0, 1000, 3, 4⟩ 0 = ((3:ℝ), (4:ℝ)) :=
  ⟨by norm_num,
   (landing_spiral_determinism ⟨⟨0, 0, 10, 50⟩, 0, 1000, 3, 4⟩
      ⟨⟨0, 0, 0, 0, 0⟩, ⟨0, 0⟩⟩ (by norm_num)).1⟩

/-! ## Planet pixel hit-test (lines 402-454) -/

/-- Environment of the browser-dependent effects of `isClickOnPlanetPixel`:
whether the planet image is present and complete, whether creating the
scratch 2d context succeeds, whether `getImageData` throws (tainted canvas),
and the alpha channel that a successful read would return at an image-local
coordinate. -/
structure PixelEnv where
  imgLoaded : Bool
  ctxOk : Bool
  readThrows : Bool
  alpha : ℝ → ℝ → ℕ

/-- The circular fallback test `Math.sqrt(dx*dx + dy*dy) <= planet.size`
(lines 413-415 and 450). -/
noncomputable def circleHit (planet : Planet) (clickWorldX clickWorldY : ℝ) : Bool :=
  if Real.sqrt (getWrappedDistance planet.x clickWorldX *
        getWrappedDistance planet.x clickWorldX +
      getWrappedDistance planet.y clickWorldY *
        getWrappedDistance planet.y clickWorldY) ≤ planet.size
  then true else false

/-- `isClickOnPlanetPixel` (lines 403-454): no-image fallback, scratch-context
failure, image-bounds check, `getImageData` with its catch-to-circle
fallback, and the `alpha > 50` visibility threshold.  Total by construction:
no branch propagates an error. -/
noncomputable def isClickOnPlanetPixel (env : PixelEnv) (planet : Planet)
    (clickWorldX clickWorldY : ℝ) : Bool :=
  if !env.imgLoaded then circleHit planet clickWorldX clickWorldY
  else if !env.ctxOk then false
  else
    let imageSize := planet.size * 2
    let dx := getWrappedDistance planet.x clickWorldX
    let dy := getWrappedDistance planet.y clickWorldY
    let imgX := dx + imageSize / 2
    let imgY := dy + imageSize / 2
    if imgX < 0 ∨ imgX ≥ imageSize ∨ imgY < 0 ∨ imgY ≥ imageSize then false
    else if env.readThrows then circleHit planet clickWorldX clickWorldY
    else if env.alpha imgX imgY > 50 then true else false

/-- The hit-test as C9 words it: an unavailable image or a throwing pixel
read degrades to the circular test; otherwise the sampled alpha at the
click's image-local coordinate decides. -/
noncomputable def claimPlanetHitTest (env : PixelEnv) (planet : Planet)
    (clickWorldX clickWorldY : ℝ) : Bool :=
  if !env.imgLoaded || env.readThrows then circleHit planet clickWorldX clickWorldY
  else if env.alpha (getWrappedDistance planet.x clickWorldX + planet.size * 2 / 2)
      (getWrappedDistance planet.y clickWorldY + planet.size * 2 / 2) > 50
  then true else false

/-- **C9, counterexample.**  When the scratch 2d context cannot be created
(line 421) the code returns `false` even though the image is loaded, the
read would not throw, and the sampled alpha (255) exceeds the threshold —
the claim's "otherwise alpha decides" branch does not hold there. -/
theorem pixel_hit_test_ctx_failure :
    isClickOnPlanetPixel ⟨true, false, false, fun _ _ => 255⟩ ⟨0, 0, 10, 50⟩ 0 0 = false ∧
      claimPlanetHitTest ⟨true, false, false, fun _ _ => 255⟩ ⟨0, 0, 10, 50⟩ 0 0 = true := by
  constructor
  · simp [isClickOnPlanetPixel]
  · simp [claimPlanetHitTest]

/-- **C9, amended.**  Provided the scratch 2d context can be created: an
unavailable image degrades to the circular test; a throwing read at an
in-bounds image coordinate degrades to the circular test; a successful
in-bounds read returns `true` exactly when the sampled alpha exceeds 50; an
out-of-bounds click (no pixel to sample) returns `false`; and when context
creation fails the test returns `false` (still without propagating any
error). -/
theorem pixel_hit_test_branches :
    ∀ (env : PixelEnv) (planet : Planet) (clickWorldX clickWorldY : ℝ),
      (env.imgLoaded = false →
        isClickOnPlanetPixel env planet clickWorldX clickWorldY =
          circleHit planet clickWorldX clickWorldY) ∧
      (env.imgLoaded = true → env.ctxOk = true → env.readThrows = true →
        ¬(getWrappedDistance planet.x clickWorldX + planet.size * 2 / 2 < 0 ∨
          getWrappedDistance planet.x clickWorldX + planet.size * 2 / 2 ≥ planet.size * 2 ∨
          getWrappedDistance planet.y clickWorldY + planet.size * 2 / 2 < 0 ∨
          getWrappedDistance planet.y clickWorldY + planet.size * 2 / 2 ≥ planet.size * 2) →
        isClickOnPlanetPixel env planet clickWorldX clickWorldY =
          circleHit planet clickWorldX clickWorldY) ∧
      (env.imgLoaded = true → env.ctxOk = true → env.readThrows = false →
        ¬(getWrappedDistance planet.x clickWorldX + planet.size * 2 / 2 < 0 ∨
          getWrappedDistance planet.x clickWorldX + planet.size * 2 / 2 ≥ planet.size * 2 ∨
          getWrappedDistance planet.y clickWorldY + planet.size * 2 / 2 < 0 ∨
          getWrappedDistance planet.y clickWorldY + planet.size * 2 / 2 ≥ planet.size * 2) →
        (isClickOnPlanetPixel env planet clickWorldX clickWorldY = true ↔
          env.alpha (getWrappedDistance planet.x clickWorldX + planet.size * 2 / 2)
            (getWrappedDistance planet.y clickWorldY + planet.size * 2 / 2) > 50)) ∧
      (env.imgLoaded = true → env.ctxOk = true →
        (getWrappedDistance planet.x clickWorldX + planet.size * 2 / 2 < 0 ∨
          getWrappedDistance planet.x clickWorldX + planet.size * 2 / 2 ≥ planet.size * 2 ∨
          getWrappedDistance planet.y clickWorldY + planet.size * 2 / 2 < 0 ∨
          getWrappedDistance planet.y clickWorldY + planet.size * 2 / 2 ≥ planet.size * 2) →
        isClickOnPlanetPixel env planet clickWorldX clickWorldY = false) ∧
      (env.imgLoaded = true → env.ctxOk = false →
        isClickOnPlanetPixel env planet clickWorldX clickWorldY = false) := by
  intro env planet clickWorldX clickWorldY
  refine ⟨fun hni => ?_, fun hl hc ht hb => ?_, fun hl hc ht hb => ?_,
    fun hl hc hb => ?_, fun hl hc => ?_⟩
  · simp only [isClickOnPlanetPixel, hni]
    rfl
  · simp only [isClickOnPlanetPixel, hl, hc, ht, Bool.not_true, Bool.false_eq_true,
      if_false]
    rw [if_neg hb]
    simp
  · simp only [isClickOnPlanetPixel, hl, hc, ht, Bool.not_true, Bool.false_eq_true,
      if_false]
    rw [if_neg hb]
    rw [show planet.size * 2 / 2 = planet.size by ring]
    split_ifs with ha
    · simp [ha]
    · simp [ha]
  · simp only [isClickOnPlanetPixel, hl, hc, Bool.not_true, Bool.false_eq_true, if_false]
    rw [if_pos hb]
  · simp only [isClickOnPlanetPixel, hl, hc, Bool.not_true, Bool.not_false,
      Bool.false_eq_true, if_false]
    rfl

/-- Witness for the amended C9 theorem: missing image degrades to the circle
test at a concrete environment. -/
theorem pixel_hit_test_branches_witness :
    ((⟨false, true, false, fun _ _ => 0⟩ : PixelEnv).imgLoaded = false) ∧
      isClickOnPlanetPixel ⟨false, true, false, fun _ _ => 0⟩ ⟨0, 0, 10, 50⟩ 0 0 =
        circleHit ⟨0, 0, 10, 50⟩ 0 0 :=
  ⟨rfl, (pixel_hit_test_branches ⟨false, true, false, fun _ _ => 0⟩ ⟨0, 0, 10, 50⟩ 0 0).1 rfl⟩

end SpaceMap
